import Mathlib

/-!
Verification development for a two-file repository:

* `learn/python/learn/learn_runner.py` — an experiment dispatcher `run`
  that builds an experiment object via a factory and invokes one of its
  members named by a string, plus the diagnostic helper `_valid_tasks`.
* `tensorrt/test/test_tftrt.py` — a script checking a TensorRT graph
  optimization against the original graph (external framework; only its
  orchestration shape is relevant here).

The dispatcher is embedded shallowly: a Python object is a finite
association list from attribute names to attributes, where an attribute is
either a zero-argument callable or a plain (non-callable) value.  `run` is
translated statement by statement from the source; in addition to the
returned value (or raised error) it records the arguments with which the
factory was invoked, the experiment methods actually called, and the
diagnostic log lines emitted, so that the side-effect claims of the spec
can be stated.
-/

namespace LearnRunner

/-- A Python attribute as the dispatcher observes it: either a callable
taking no arguments (a bound method) or a non-callable value. -/
inductive Attr (α : Type) where
  | callable (f : Unit → α)
  | value (v : α)

/-- `callable(x)` for an attribute. -/
def Attr.isCallable {α : Type} : Attr α → Bool
  | .callable _ => true
  | .value _ => false

/-- An `Experiment` instance: its attribute dictionary, keyed by name.
`dir(experiment)` enumerates these names; `getattr` looks one up. -/
structure Experiment (α : Type) where
  attrs : List (String × Attr α)

/-- Association-list lookup underlying `getattr`/`hasattr`. -/
def lookupAttr {α : Type} : List (String × Attr α) → String → Option (Attr α)
  | [], _ => none
  | (k, v) :: rest, name => if k == name then some v else lookupAttr rest name

/-- `getattr(experiment, name)`, `none` when the attribute is absent. -/
def getattr {α : Type} (e : Experiment α) (name : String) : Option (Attr α) :=
  lookupAttr e.attrs name

/-- `hasattr(experiment, name)`. -/
def hasattr {α : Type} (e : Experiment α) (name : String) : Bool :=
  (getattr e name).isSome

/-- `dir(experiment)`: the attribute names of the handle. -/
def dirNames {α : Type} (e : Experiment α) : List String :=
  e.attrs.map Prod.fst

/-- Python `x.startswith(p)`: the characters of `p` are an initial segment
of the characters of `x`. -/
def pyStartsWith (x p : String) : Bool :=
  p.data.isPrefixOf x.data

/-- Source `_valid_tasks`:
`[x for x in dir(experiment) if callable(getattr(experiment, x)) and not x.startswith('_')]`. -/
def _valid_tasks {α : Type} (e : Experiment α) : List String :=
  (dirNames e).filter (fun x =>
    (match getattr e x with
     | some a => a.isCallable
     | none => false)
    && !(pyStartsWith x "_"))

/-- Result of invoking the factory `experiment_fn(output_dir=...)`: either
an `Experiment` instance, or some other object, of which only the name of
its type matters (it is interpolated into the error message). -/
inductive FactoryResult (α : Type) where
  | experiment (e : Experiment α)
  | notExperiment (tyName : String)

/-- The `experiment_fn` argument: either not callable (carrying its `%s`
string representation) or a callable from the output directory to a
factory result. -/
inductive ExperimentFn (α : Type) where
  | notCallable (reprStr : String)
  | callable (f : String → FactoryResult α)

/-- Exceptions raised by `run`, with their exact message strings. -/
inductive PyError where
  | valueError (msg : String)
  | typeError (msg : String)
deriving DecidableEq

/-- Diagnostic lines emitted via `logging.error` before raising. -/
inductive LogLine where
  | nonExistentTask (schedule : String)
  | nonCallableMember (schedule : String)
  | allowedValues (tasks : List String)
deriving DecidableEq

/-- Observable trace of one call of `run`: the arguments passed to the
factory (in order), the experiment methods invoked, the log lines emitted,
and the returned value or raised error. -/
structure RunTrace (α : Type) where
  factoryArgs : List String
  methodCalls : List String
  logs : List LogLine
  result : Except PyError α

/-- Source `run(experiment_fn, output_dir, schedule)`, translated line by
line from `learn_runner.py`. -/
def run {α : Type} (experiment_fn : ExperimentFn α) (output_dir schedule : String) :
    RunTrace α :=
  if output_dir.isEmpty then
    ⟨[], [], [], .error (.valueError "Must specify an output directory")⟩
  else if schedule.isEmpty then
    ⟨[], [], [], .error (.valueError "Must specify a schedule")⟩
  else
    match experiment_fn with
    | .notCallable r =>
        ⟨[], [], [],
         .error (.typeError ("Experiment builder \"" ++ r ++ "\" is not callable."))⟩
    | .callable f =>
        match f output_dir with
        | .notExperiment ty =>
            ⟨[output_dir], [], [],
             .error (.typeError
               ("Experiment builder did not return an Experiment instance, got "
                 ++ ty ++ " instead."))⟩
        | .experiment e =>
            match getattr e schedule with
            | none =>
                ⟨[output_dir], [],
                 [LogLine.nonExistentTask schedule,
                  LogLine.allowedValues (_valid_tasks e)],
                 .error (.valueError
                   ("Schedule references non-existent task " ++ schedule))⟩
            | some (.value _) =>
                ⟨[output_dir], [],
                 [LogLine.nonCallableMember schedule,
                  LogLine.allowedValues (_valid_tasks e)],
                 .error (.typeError
                   ("Schedule references non-callable member " ++ schedule))⟩
            | some (.callable task) =>
                ⟨[output_dir], [schedule], [], .ok (task ())⟩

/-- A successful lookup means the name is among the handle's attribute names. -/
theorem mem_dirNames_of_getattr {α : Type} (e : Experiment α) (x : String)
    (a : Attr α) (h : getattr e x = some a) : x ∈ dirNames e := by
  obtain ⟨l⟩ := e
  induction l with
  | nil => simp [getattr, lookupAttr] at h
  | cons p rest ih =>
      obtain ⟨k, v⟩ := p
      simp only [getattr, lookupAttr] at h
      simp only [dirNames, List.map_cons, List.mem_cons]
      by_cases hk : (k == x) = true
      · exact Or.inl (eq_of_beq hk).symm
      · simp only [hk, if_false] at h
        have hx := ih h
        simp only [dirNames] at hx
        exact Or.inr hx

end LearnRunner

open LearnRunner

/-- Claim C4: `_valid_tasks` returns exactly the attribute names of the
handle that are callable and do not begin with an underscore. -/
theorem C4_valid_tasks_exactly_public_callables {α : Type} (e : Experiment α)
    (x : String) :
    x ∈ _valid_tasks e ↔
      ((∃ a, getattr e x = some a ∧ a.isCallable = true) ∧
        pyStartsWith x "_" = false) := by
  unfold _valid_tasks
  rw [List.mem_filter]
  constructor
  · rintro ⟨hmem, hp⟩
    rw [Bool.and_eq_true] at hp
    obtain ⟨hcall, hund⟩ := hp
    cases hg : getattr e x with
    | none => rw [hg] at hcall; simp at hcall
    | some a =>
        rw [hg] at hcall
        refine ⟨⟨a, rfl, hcall⟩, ?_⟩
        simpa using hund
  · rintro ⟨⟨a, hg, hcall⟩, hund⟩
    refine ⟨mem_dirNames_of_getattr e x a hg, ?_⟩
    simp [hg, hcall, hund]

/-- Claim C2: for non-empty `output_dir` and `schedule`, a callable factory
returning an `Experiment` that exposes `schedule` as a callable member,
`run` returns exactly the value that member returns when invoked with no
arguments. -/
theorem C2_run_returns_schedule_result {α : Type} (f : String → FactoryResult α)
    (output_dir schedule : String) (e : Experiment α) (task : Unit → α)
    (hod : output_dir.isEmpty = false) (hsd : schedule.isEmpty = false)
    (hf : f output_dir = .experiment e)
    (hg : getattr e schedule = some (.callable task)) :
    (run (.callable f) output_dir schedule).result = .ok (task ()) := by
  simp [run, hod, hsd, hf, hg]

/-- Claim C2, witness: a concrete factory and experiment with a callable
member named `train` returning `"trained"`. -/
theorem C2_witness :
    ("out" : String).isEmpty = false ∧ ("train" : String).isEmpty = false ∧
    (run (.callable fun _ =>
        FactoryResult.experiment
          ⟨[("train", Attr.callable fun _ => "trained")]⟩)
      "out" "train").result = .ok "trained" :=
  ⟨rfl, rfl,
    C2_run_returns_schedule_result
      (fun _ => FactoryResult.experiment
        ⟨[("train", Attr.callable fun _ => "trained")]⟩)
      "out" "train"
      ⟨[("train", Attr.callable fun _ => "trained")]⟩
      (fun _ => "trained") rfl rfl rfl rfl⟩

/-- Claim C3, counterexample: on a handle with public `train() -> "trained"`
and private `_private() -> "x"`, `run` with schedule `"_private"` does NOT
raise a lookup error — `hasattr`/`getattr` find the private member, it is
callable, and it is invoked, returning `"x"`. -/
theorem C3_counterexample :
    (run (.callable fun _ =>
        FactoryResult.experiment
          ⟨[("train", Attr.callable fun _ => "trained"),
            ("_private", Attr.callable fun _ => "x")]⟩)
      "out" "_private").result = .ok "x" := by
  rfl

/-- Claim C3, amended: schedule `"train"` returns `"trained"`, and schedule
`"_private"` returns `"x"` — an underscore-prefixed member IS invocable as
a schedule; the public-member filtering applies only to the diagnostic
`_valid_tasks` listing, which contains exactly `["train"]`. -/
theorem C3_amended_private_schedule_invocable :
    (run (.callable fun _ =>
        FactoryResult.experiment
          ⟨[("train", Attr.callable fun _ => "trained"),
            ("_private", Attr.callable fun _ => "x")]⟩)
      "out" "train").result = .ok "trained" ∧
    (run (.callable fun _ =>
        FactoryResult.experiment
          ⟨[("train", Attr.callable fun _ => "trained"),
            ("_private", Attr.callable fun _ => "x")]⟩)
      "out" "_private").result = .ok "x" ∧
    _valid_tasks (α := String)
        ⟨[("train", Attr.callable fun _ => "trained"),
          ("_private", Attr.callable fun _ => "x")]⟩ = ["train"] := by
  refine ⟨rfl, rfl, ?_⟩
  rfl

/-- Claim C5: an empty `output_dir` raises the output-directory
configuration error without invoking the factory or examining `schedule`;
a non-empty `output_dir` with an empty `schedule` raises the distinct
schedule configuration error, again without invoking the factory; the two
errors are distinct. -/
theorem C5_precondition_checks_fail_fast {α : Type} (experiment_fn : ExperimentFn α)
    (output_dir schedule : String) :
    (output_dir.isEmpty = true →
      run experiment_fn output_dir schedule =
        ⟨[], [], [], .error (.valueError "Must specify an output directory")⟩) ∧
    (output_dir.isEmpty = false → schedule.isEmpty = true →
      run experiment_fn output_dir schedule =
        ⟨[], [], [], .error (.valueError "Must specify a schedule")⟩) ∧
    PyError.valueError "Must specify an output directory" ≠
      PyError.valueError "Must specify a schedule" := by
  refine ⟨?_, ?_, by decide⟩
  · intro h
    simp [run, h]
  · intro h1 h2
    simp [run, h1, h2]

/-- Claim C5, witness: concrete calls with an empty output directory (also
with an empty schedule, showing the order of the checks) and with an empty
schedule only. -/
theorem C5_witness :
    run (ExperimentFn.notCallable "f" : ExperimentFn String) "" "" =
      ⟨[], [], [], .error (.valueError "Must specify an output directory")⟩ ∧
    run (ExperimentFn.notCallable "f" : ExperimentFn String) "out" "" =
      ⟨[], [], [], .error (.valueError "Must specify a schedule")⟩ :=
  ⟨(C5_precondition_checks_fail_fast (ExperimentFn.notCallable "f") "" "").1 rfl,
   (C5_precondition_checks_fail_fast (ExperimentFn.notCallable "f") "out" "").2.1 rfl rfl⟩

/-- Claim C6: for non-empty `output_dir` and `schedule`, a non-callable
`experiment_fn` raises a type error and the trace records no factory
invocation, no method invocation and no log output. -/
theorem C6_non_callable_factory_type_error {α : Type} (r : String)
    (output_dir schedule : String)
    (hod : output_dir.isEmpty = false) (hsd : schedule.isEmpty = false) :
    run (ExperimentFn.notCallable r : ExperimentFn α) output_dir schedule =
      ⟨[], [], [],
       .error (.typeError
         ("Experiment builder \"" ++ r ++ "\" is not callable."))⟩ := by
  simp [run, hod, hsd]

/-- Claim C6, witness: a concrete non-callable factory value. -/
theorem C6_witness :
    run (ExperimentFn.notCallable "5" : ExperimentFn String) "out" "train" =
      ⟨[], [], [],
       .error (.typeError "Experiment builder \"5\" is not callable.")⟩ :=
  C6_non_callable_factory_type_error "5" "out" "train" rfl rfl

/-- Claim C7: a callable factory whose result is not an `Experiment`
instance makes `run` raise a type error whose message names the actual
type received; the trace shows the factory was called once and no method
of the returned object was invoked. -/
theorem C7_wrong_factory_result_type_error {α : Type} (f : String → FactoryResult α)
    (output_dir schedule tyName : String)
    (hod : output_dir.isEmpty = false) (hsd : schedule.isEmpty = false)
    (hf : f output_dir = .notExperiment tyName) :
    run (.callable f) output_dir schedule =
      ⟨[output_dir], [], [],
       .error (.typeError
         ("Experiment builder did not return an Experiment instance, got "
           ++ tyName ++ " instead."))⟩ := by
  simp [run, hod, hsd, hf]

/-- Claim C7, witness: a factory returning a non-Experiment of type
`<class 'int'>`. -/
theorem C7_witness :
    run (ExperimentFn.callable
        (fun _ => FactoryResult.notExperiment "<class 'int'>") : ExperimentFn String)
      "out" "train" =
      ⟨["out"], [], [],
       .error (.typeError
         ("Experiment builder did not return an Experiment instance, got "
           ++ "<class 'int'>" ++ " instead."))⟩ :=
  C7_wrong_factory_result_type_error
    (fun _ => FactoryResult.notExperiment "<class 'int'>")
    "out" "train" "<class 'int'>" rfl rfl rfl

/-- Claim C8: when the experiment handle has no attribute named `schedule`,
`run` emits exactly two diagnostic log lines in order — the specific
failure naming the attempted schedule, then the `_valid_tasks` listing —
and fails with the lookup (`ValueError`) error. -/
theorem C8_missing_schedule_logs_then_value_error {α : Type}
    (f : String → FactoryResult α) (output_dir schedule : String)
    (e : Experiment α)
    (hod : output_dir.isEmpty = false) (hsd : schedule.isEmpty = false)
    (hf : f output_dir = .experiment e)
    (hattr : getattr e schedule = none) :
    run (.callable f) output_dir schedule =
      ⟨[output_dir], [],
       [LogLine.nonExistentTask schedule,
        LogLine.allowedValues (_valid_tasks e)],
       .error (.valueError
         ("Schedule references non-existent task " ++ schedule))⟩ := by
  simp [run, hod, hsd, hf, hattr]

/-- Claim C8, witness: a handle exposing only `train`, asked for the
non-existent schedule `evaluate`. -/
theorem C8_witness :
    run (ExperimentFn.callable fun _ =>
        FactoryResult.experiment
          ⟨[("train", Attr.callable fun _ => "trained")]⟩)
      "out" "evaluate" =
      ⟨["out"], [],
       [LogLine.nonExistentTask "evaluate",
        LogLine.allowedValues ["train"]],
       .error (.valueError "Schedule references non-existent task evaluate")⟩ :=
  C8_missing_schedule_logs_then_value_error
    (fun _ => FactoryResult.experiment
      ⟨[("train", Attr.callable fun _ => "trained")]⟩)
    "out" "evaluate"
    ⟨[("train", Attr.callable fun _ => "trained")]⟩
    rfl rfl rfl rfl

/-- Claim C9: when `schedule` names an existing attribute that is not
callable, `run` emits the non-callable-member diagnostic followed by the
`_valid_tasks` listing, raises a type error, and invokes no method. -/
theorem C9_non_callable_member_type_error {α : Type}
    (f : String → FactoryResult α) (output_dir schedule : String)
    (e : Experiment α) (v : α)
    (hod : output_dir.isEmpty = false) (hsd : schedule.isEmpty = false)
    (hf : f output_dir = .experiment e)
    (hattr : getattr e schedule = some (.value v)) :
    run (.callable f) output_dir schedule =
      ⟨[output_dir], [],
       [LogLine.nonCallableMember schedule,
        LogLine.allowedValues (_valid_tasks e)],
       .error (.typeError
         ("Schedule references non-callable member " ++ schedule))⟩ := by
  simp [run, hod, hsd, hf, hattr]

/-- Claim C9, witness: a handle whose `config` attribute is a plain value,
asked for schedule `config`. -/
theorem C9_witness :
    run (ExperimentFn.callable fun _ =>
        FactoryResult.experiment
          ⟨[("train", Attr.callable fun _ => "trained"),
            ("config", Attr.value "cfg")]⟩)
      "out" "config" =
      ⟨["out"], [],
       [LogLine.nonCallableMember "config",
        LogLine.allowedValues ["train"]],
       .error (.typeError "Schedule references non-callable member config")⟩ :=
  C9_non_callable_member_type_error
    (fun _ => FactoryResult.experiment
      ⟨[("train", Attr.callable fun _ => "trained"),
        ("config", Attr.value "cfg")]⟩)
    "out" "config"
    ⟨[("train", Attr.callable fun _ => "trained"),
      ("config", Attr.value "cfg")]⟩
    "cfg" rfl rfl rfl rfl

/-- Claim C10: for non-empty `output_dir` and `schedule` and a callable
factory, `run` invokes the factory exactly once, with `output_dir` as its
argument, on every path — including the failure paths that follow the
factory call. -/
theorem C10_factory_called_exactly_once {α : Type}
    (f : String → FactoryResult α) (output_dir schedule : String)
    (hod : output_dir.isEmpty = false) (hsd : schedule.isEmpty = false) :
    (run (.callable f) output_dir schedule).factoryArgs = [output_dir] := by
  cases hf : f output_dir with
  | notExperiment ty => simp [run, hod, hsd, hf]
  | experiment e =>
      cases hg : getattr e schedule with
      | none => simp [run, hod, hsd, hf, hg]
      | some a =>
          cases a with
          | callable task => simp [run, hod, hsd, hf, hg]
          | value v => simp [run, hod, hsd, hf, hg]

/-- Claim C10, witness: a concrete run on a failure path (missing
schedule) still records exactly one factory invocation with the output
directory as argument. -/
theorem C10_witness :
    (run (ExperimentFn.callable fun _ =>
        FactoryResult.experiment
          ⟨[("train", Attr.callable fun _ => "trained")]⟩)
      "out" "missing").factoryArgs = ["out"] :=
  C10_factory_called_exactly_once
    (fun _ => FactoryResult.experiment
      ⟨[("train", Attr.callable fun _ => "trained")]⟩)
    "out" "missing" rfl rfl
